import Mathlib

/-
  Shallow embedding of lib/cache/lvmcache.c (LVM2 metadata cache).

  The C state lives in process-wide globals: four hash tables
  (_pvid_hash, _vgid_hash, _vgname_hash, _lock_hash), the clvmd-only
  _saved_vg_hash, the _vginfos list, the duplicate-device lists and a few
  scalar flags.  Here all of it is gathered into one `Cache` structure and
  every C function becomes a state-passing Lean function.

  Heap pointers to `struct lvmcache_info` and `struct lvmcache_vginfo`
  are modelled as numeric identifiers into the `infos` / `vgs`
  association lists; `struct device` pointers as numeric identifiers with
  the mutable `dev->pvid` field kept in `devPvids`.  dm_hash tables are
  association lists: dm_hash_insert prepends a binding (shadowing),
  dm_hash_lookup returns the first binding, dm_hash_remove removes the
  first binding.  The vgname hash maps a name to the chain of vginfos
  sharing the name (hash target first, then the vginfo->next chain).
-/

namespace Lvm

/-- Association-list lookup returning the first value bound to the key,
mirroring dm_hash_lookup. -/
def afind {κ α : Type} [DecidableEq κ] (k : κ) : List (κ × α) → Option α
  | [] => none
  | e :: t => if e.1 = k then some e.2 else afind k t

/-- Remove the first binding of the key, mirroring dm_hash_remove. -/
def aerase {κ α : Type} [DecidableEq κ] (k : κ) : List (κ × α) → List (κ × α)
  | [] => []
  | e :: t => if e.1 = k then t else e :: aerase k t

/-- Replace the value of the first binding of the key; no change when the
key is absent (used only after a successful lookup). -/
def aset {κ α : Type} [DecidableEq κ] (k : κ) (v : α) : List (κ × α) → List (κ × α)
  | [] => []
  | e :: t => if e.1 = k then (k, v) :: t else e :: aset k v t

/-- Insert or replace the binding of the key (used for the pvid field of a
struct device, which always exists on the device object). -/
def aupsert {κ α : Type} [DecidableEq κ] (k : κ) (v : α) : List (κ × α) → List (κ × α)
  | [] => [(k, v)]
  | e :: t => if e.1 = k then (k, v) :: t else e :: aupsert k v t

/-- ID_LEN from the LVM2 headers: pvids and vgids are 32-byte identifiers. -/
def ID_LEN : Nat := 32

/-- dm_strncpy / strncmp with ID_LEN truncate identifier strings to
ID_LEN characters. -/
def idTrunc (s : String) : String := String.mk (s.data.take ID_LEN)

/-- Modelled from the spec: the reserved global lock name VG_GLOBAL
("#global"); the macro lives in a header outside src/. -/
def VG_GLOBAL : String := "#global"

/-- Modelled from the spec: the reserved orphan lock name VG_ORPHANS
("#orphans"); orphan VG names are exactly the names carrying this
prefix, e.g. "#orphans_lvm2". -/
def VG_ORPHANS : String := "#orphans"

/-- Modelled from the spec: the text-format orphan VG name
(FMT_TEXT_ORPHAN_VG_NAME, "#orphans_lvm2"), defined outside src/. -/
def FMT_TEXT_ORPHAN_VG_NAME : String := "#orphans_lvm2"

/-- Modelled from the spec: is_global_vg from metadata headers outside
src/: string equality with VG_GLOBAL. -/
def isGlobalVg (n : String) : Bool := n = VG_GLOBAL

/-- Modelled from the spec: is_orphan_vg from metadata headers outside
src/: the name starts with the VG_ORPHANS characters (spec: any orphan
name aliases to VG_ORPHANS). -/
def isOrphanVg (n : String) : Bool := VG_ORPHANS.data.isPrefixOf n.data

/-- strcmp(a, b) < 0 on the character sequences (byte order; the VG
names involved are ASCII). -/
def strLtChars : List Char → List Char → Bool
  | [], [] => false
  | [], _ :: _ => true
  | _ :: _, [] => false
  | a :: as, b :: bs =>
    if a.toNat < b.toNat then true
    else if b.toNat < a.toNat then false
    else strLtChars as bs

/-- strcmp(a, b) < 0 on strings. -/
def strLt (a b : String) : Bool := strLtChars a.data b.data

/-- is_orphan_vg applied to a possibly NULL vgname pointer. -/
def isOrphanVgOpt : Option String → Bool
  | none => false
  | some n => isOrphanVg n

/-- CACHE_LOCKED status bit on a struct lvmcache_info (0x2). -/
def CACHE_LOCKED : Nat := 2

/-- Modelled from the spec: the EXPORTED_VG status bit from the metadata
headers outside src/ (its numeric value is irrelevant to the claims). -/
def EXPORTED_VG : Nat := 2

/-
  Duplicate-PV resolver: the priority ladder of _choose_preferred_devs.
  A device of one duplicate group is reduced to the boolean attributes the
  comparison loop computes for it (membership in the two unused lists,
  DEV_USED_FOR_LV, size agreement with the cached device_size, mounted
  filesystem, device-mapper major, subsystem major).  All attributes are
  fixed while the loop for one pvid group runs: the unused lists are only
  swapped after every group is done.
-/

/-- The attributes _choose_preferred_devs computes for one device of a
duplicate group. -/
structure DupDevAttrs where
  prevUnchosenMain : Bool
  prevUnchosenCmd : Bool
  hasLv : Bool
  sameSize : Bool
  hasFs : Bool
  isDm : Bool
  inSubsys : Bool
deriving DecidableEq

/-- The pair (prev_unchosen1, prev_unchosen2): first the process-wide
_unused_duplicate_devs list is consulted; only when neither device is on
it does the command-scoped cmd->unused_duplicate_devs list decide. -/
def prevUnchosenPair (d1 d2 : DupDevAttrs) : Bool × Bool :=
  if d1.prevUnchosenMain || d2.prevUnchosenMain then
    (d1.prevUnchosenMain, d2.prevUnchosenMain)
  else
    (d1.prevUnchosenCmd, d2.prevUnchosenCmd)

/-- The comparison chain of _choose_preferred_devs: d1 is the current
winner, d2 the candidate; the result is the `change` flag (true means the
candidate replaces the winner).  Earlier tests strictly dominate later
ones; when a device is on an unused list it is unpreferred. -/
def duplicateChange (d1 d2 : DupDevAttrs) : Bool :=
  let p1 := (prevUnchosenPair d1 d2).1
  let p2 := (prevUnchosenPair d1 d2).2
  if p1 && !p2 then true
  else if p2 && !p1 then false
  else if d1.hasLv && !d2.hasLv then false
  else if d2.hasLv && !d1.hasLv then true
  else if d1.sameSize && !d2.sameSize then false
  else if d2.sameSize && !d1.sameSize then true
  else if d1.hasFs && !d2.hasFs then false
  else if d2.hasFs && !d1.hasFs then true
  else if d1.isDm && !d2.isDm then false
  else if d2.isDm && !d1.isDm then true
  else if d1.inSubsys && !d2.inSubsys then false
  else if d2.inSubsys && !d1.inSubsys then true
  else false

/-- The comparison loop of _choose_preferred_devs for one pvid group:
start from the device currently in lvmcache and fold over the alternate
devices, replacing the winner whenever the chain says change. -/
def chooseDuplicateDev (current : DupDevAttrs) (alts : List DupDevAttrs) : DupDevAttrs :=
  alts.foldl (fun w a => if duplicateChange w a then a else w) current

/-- Rank of the sticky-unpreference stage: a device on the process-wide
unused list ranks 2 (worst), one only on the command list ranks 1, a
fresh device ranks 0. -/
def rank1 (d : DupDevAttrs) : Nat :=
  if d.prevUnchosenMain then 2 else if d.prevUnchosenCmd then 1 else 0

/-- Badness of one boolean attribute: possessing the attribute is good. -/
def nbad (b : Bool) : Nat := if b then 0 else 1

/-- Badness key of the attribute list tail, most significant first. -/
def encodeKey : List Bool → Nat
  | [] => 0
  | b :: t => nbad b * 2 ^ t.length + encodeKey t

/-- Total badness key of the ladder: the winner of a comparison is the
device with the smaller key, ties keep the incumbent. -/
def ladderKey (d : DupDevAttrs) : Nat :=
  rank1 d * 32 + encodeKey [d.hasLv, d.sameSize, d.hasFs, d.isDm, d.inSubsys]

/-
  Entity records.
-/

/-- A parsed struct volume_group as far as the saved-VG buffer observes
it.  export_vg_to_buffer / import_vg_from_config_tree round-trip a VG
into an independent deep copy; the model represents the copy by the same
value. -/
structure VolGroup where
  name : String
  vgid : String
  seqno : Nat
deriving DecidableEq

/-- struct saved_vg (clvmd only). -/
structure SavedVg where
  committed : Bool
  vgOld : Option VolGroup
  vgNew : Option VolGroup
  toFree : List VolGroup
deriving DecidableEq

/-- struct lvmcache_vginfo.  The vginfo->next chain is represented by
the chain list stored in the vgname hash; infos holds the member info
identifiers in list order. -/
structure VgInfo where
  vgname : String
  vgid : String
  status : Nat
  creationHost : Option String
  lockType : Option String
  systemId : Option String
  mdaChecksum : Nat
  mdaSize : Nat
  seqno : Nat
  independentMetadataLocation : Bool
  scanSummaryMismatch : Bool
  fmt : Nat
  infos : List Nat
deriving DecidableEq

/-- struct lvmcache_info.  The mdas/das/bas lists are opaque to the
claims except for the mdas_empty_or_ignored predicate, kept as a field.
The labeller and format pointers are numeric identifiers. -/
structure Info where
  dev : Nat
  vginfo : Option Nat
  status : Nat
  mdasEmptyOrIgnored : Bool
  labeller : Nat
  fmt : Nat
deriving DecidableEq

/-- struct lvmcache_vgsummary. -/
structure VgSummary where
  vgname : Option String
  vgid : String
  vgstatus : Nat
  creationHost : Option String
  lockType : Option String
  systemId : Option String
  seqno : Nat
  mdaSize : Nat
  mdaChecksum : Nat
deriving DecidableEq

/-- The process-wide lvmcache state plus the environment values the
functions read (critical_section(), the command hostname, the dev_types
md major, per-device majors). -/
structure Cache where
  pvidHash : List (String × Nat)
  vgidHash : List (String × Nat)
  vgnameChains : List (String × List Nat)
  vginfosOrder : List Nat
  vgs : List (Nat × VgInfo)
  infos : List (Nat × Info)
  devPvids : List (Nat × String)
  lockHash : List String
  savedVgHash : Option (List (String × SavedVg))
  foundDuplicateDevs : List Nat
  unusedDuplicateDevs : List Nat
  foundDuplicatePvs : Bool
  vgsLocked : Nat
  devSizeSeqno : Nat
  suppressLockOrdering : Bool
  nextVgId : Nat
  nextInfoId : Nat
  criticalSection : Bool
  hostname : String
  mdMajor : Nat
  devMajors : List (Nat × Nat)
deriving DecidableEq

/-- A cache with empty tables, used to build concrete states. -/
def emptyCache : Cache where
  pvidHash := []
  vgidHash := []
  vgnameChains := []
  vginfosOrder := []
  vgs := []
  infos := []
  devPvids := []
  lockHash := []
  savedVgHash := none
  foundDuplicateDevs := []
  unusedDuplicateDevs := []
  foundDuplicatePvs := false
  vgsLocked := 0
  devSizeSeqno := 0
  suppressLockOrdering := false
  nextVgId := 100
  nextInfoId := 100
  criticalSection := false
  hostname := "host"
  mdMajor := 9
  devMajors := []

/-- Dereference a vginfo identifier. -/
def getVg (st : Cache) (vId : Nat) : Option VgInfo := afind vId st.vgs

/-- Dereference an info identifier. -/
def getInfo (st : Cache) (iId : Nat) : Option Info := afind iId st.infos

/-- Store back a vginfo (pointer write). -/
def setVg (st : Cache) (vId : Nat) (v : VgInfo) : Cache :=
  { st with vgs := aset vId v st.vgs }

/-- Store back an info (pointer write). -/
def setInfo (st : Cache) (iId : Nat) (i : Info) : Cache :=
  { st with infos := aset iId i st.infos }

/-- Read dev->pvid. -/
def devPvid (st : Cache) (d : Nat) : String := (afind d st.devPvids).getD ""

/-- Write dev->pvid (strncpy into the device object). -/
def setDevPvid (st : Cache) (d : Nat) (p : String) : Cache :=
  { st with devPvids := aupsert d p st.devPvids }

/-- MAJOR(dev->dev) of a device. -/
def devMajorOf (st : Cache) (d : Nat) : Nat := (afind d st.devMajors).getD 0

/-- The chain of vginfo identifiers registered under a name (empty when
the name is not in the vgname hash). -/
def chainOf (st : Cache) (n : String) : List Nat := (afind n st.vgnameChains).getD []

/-- lvmcache_vginfo_from_vgid: truncate the id and look it up; a NULL
vgid yields NULL. -/
def lvmcacheVginfoFromVgid (st : Cache) (vgid? : Option String) : Option Nat :=
  match vgid? with
  | none => none
  | some g => afind (idTrunc g) st.vgidHash

/-- lvmcache_vginfo_from_vgname: NULL name falls through to the vgid
index; with a vgid the chain is walked for a matching id (first ID_LEN
bytes), otherwise the primary (hash target) is returned. -/
def lvmcacheVginfoFromVgname (st : Cache) (vgname? : Option String) (vgid? : Option String) :
    Option Nat :=
  match vgname? with
  | none => lvmcacheVginfoFromVgid st vgid?
  | some vgname =>
    match afind vgname st.vgnameChains with
    | none => none
    | some chain =>
      match vgid? with
      | none => chain.head?
      | some vgid =>
        chain.find? (fun vId =>
          match afind vId st.vgs with
          | some v => decide (idTrunc vgid = idTrunc v.vgid)
          | none => false)

/-- lvmcache_info_from_pvid.  The valid_only argument of the C function
is unused by its body and omitted; the info->dev NULL test cannot fire in
the model because infos always carry their device. -/
def lvmcacheInfoFromPvid (st : Cache) (pvid : String) (dev? : Option Nat) : Option Nat :=
  match afind (idTrunc pvid) st.pvidHash with
  | none => none
  | some iId =>
    match getInfo st iId with
    | none => none
    | some info =>
      match dev? with
      | none => some iId
      | some d => if info.dev ≠ d then none else some iId

/-- The vgname of the vginfo an info is attached to, when any. -/
def infoVginfoVgname (st : Cache) (iId : Nat) : Option String :=
  match getInfo st iId with
  | none => none
  | some info =>
    match info.vginfo with
    | none => none
    | some vId => (getVg st vId).map (fun v => v.vgname)

/-- lvmcache_found_duplicate_pvs. -/
def lvmcacheFoundDuplicatePvs (st : Cache) : Bool := st.foundDuplicatePvs

/-
  Lock registry.
-/

/-- _update_cache_info_lock_state: set or clear CACHE_LOCKED on one
info's status word.  The C clears with a 32-bit and-not; on values below
two to the thirty-second this is Nat.ldiff. -/
def setInfoLockState (locked : Bool) (i : Info) : Info :=
  { i with status := if locked then i.status ||| CACHE_LOCKED
                     else Nat.ldiff i.status CACHE_LOCKED }

/-- _update_cache_vginfo_lock_state: walk the vginfo's infos updating
every member's status word (expressed as a map over the info table
restricted to the members, which touches the same entries as the C
iteration over vginfo->infos). -/
def updateCacheVginfoLockState (st : Cache) (vId : Nat) (locked : Bool) : Cache :=
  match getVg st vId with
  | none => st
  | some v =>
    { st with infos := st.infos.map (fun e =>
        if e.1 ∈ v.infos then (e.1, setInfoLockState locked e.2) else e) }

/-- _update_cache_lock_state: look the name up (primary vginfo) and
propagate; a missing vginfo is a no-op. -/
def updateCacheLockState (st : Cache) (vgname : String) (locked : Bool) : Cache :=
  match lvmcacheVginfoFromVgname st (some vgname) none with
  | none => st
  | some vId => updateCacheVginfoLockState st vId locked

/-- The member info identifiers the lock-state propagation for a name
touches (empty when the name has no vginfo). -/
def lockMembers (st : Cache) (vgname : String) : List Nat :=
  match lvmcacheVginfoFromVgname st (some vgname) none with
  | none => []
  | some vId =>
    match getVg st vId with
    | none => []
    | some v => v.infos

/-- lvmcache_vgname_is_locked: orphan names alias to VG_ORPHANS. -/
def lvmcacheVgnameIsLocked (st : Cache) (vgname : String) : Bool :=
  (if isOrphanVg vgname then VG_ORPHANS else vgname) ∈ st.lockHash

/-- lvmcache_lock_vgname.  A nested lock only logs an internal error and
inserts anyway; non-global names propagate CACHE_LOCKED and bump the
locked-VG count. -/
def lvmcacheLockVgname (st : Cache) (vgname : String) : Cache :=
  let st1 := { st with lockHash := vgname :: st.lockHash }
  if vgname ≠ VG_GLOBAL then
    let st2 := updateCacheLockState st1 vgname true
    { st2 with vgsLocked := st2.vgsLocked + 1 }
  else st1

/-- lvmcache_unlock_vgname.  Unlocking an unlocked name only logs; a
non-global unlock clears CACHE_LOCKED, removes the key, decrements the
count and, when the count reaches zero, bumps the monotonic device-size
seqno (dev_size_seqno_inc). -/
def lvmcacheUnlockVgname (st : Cache) (vgname : String) : Cache :=
  let st1 := if vgname ≠ VG_GLOBAL then updateCacheLockState st vgname false else st
  let st2 := { st1 with lockHash := st1.lockHash.erase vgname }
  if vgname ≠ VG_GLOBAL then
    let c := st2.vgsLocked - 1
    if c = 0 then { st2 with vgsLocked := c, devSizeSeqno := st2.devSizeSeqno + 1 }
    else { st2 with vgsLocked := c }
  else st2

/-- _vgname_order_correct: does vgname2 come after vgname1 (VG_GLOBAL
first, orphans last, otherwise strict byte order)? -/
def vgnameOrderCorrect (vgname1 vgname2 : String) : Bool :=
  if isGlobalVg vgname1 then true
  else if isGlobalVg vgname2 then false
  else if isOrphanVg vgname1 then false
  else if isOrphanVg vgname2 then true
  else strLt vgname1 vgname2

/-- lvmcache_verify_lock_order: unless ordering is suppressed, every key
already held must precede the new name.  The NULL-data and NULL-key
checks of the C loop cannot fire in the model. -/
def lvmcacheVerifyLockOrder (st : Cache) (vgname : String) : Bool :=
  if st.suppressLockOrdering then true
  else st.lockHash.all (fun k => vgnameOrderCorrect k vgname)

/-
  Saved-VG buffer (clvmd only).
-/

/-- _saved_vg_from_vgid; a NULL _saved_vg_hash has no entries. -/
def savedVgFromVgid (st : Cache) (vgid : String) : Option SavedVg :=
  st.savedVgHash.bind (fun h => afind (idTrunc vgid) h)

/-- Write back one saved_vg slot entry. -/
def updateSavedVg (st : Cache) (vgid : String) (svg : SavedVg) : Cache :=
  { st with savedVgHash := st.savedVgHash.map (fun h => aset (idTrunc vgid) svg h) }

/-- _saved_vg_inval: displace the requested slots onto the deferred
saved_vg_to_free list (dm_list_add appends at the tail). -/
def savedVgInval (svg : SavedVg) (invalOld invalNew : Bool) : SavedVg :=
  let s1 :=
    if invalOld then
      match svg.vgOld with
      | some vg => { svg with toFree := svg.toFree ++ [vg], vgOld := none }
      | none => svg
    else svg
  if invalNew then
    match s1.vgNew with
    | some vg => { s1 with toFree := s1.toFree ++ [vg], vgNew := none }
    | none => s1
  else s1

/-- _saved_vg_free: freeing the old side also drains the deferred-free
list; freeing the new side releases only that slot. -/
def savedVgFree (svg : SavedVg) (freeOld freeNew : Bool) : SavedVg :=
  let s1 := if freeOld then { svg with vgOld := none, toFree := [] } else svg
  if freeNew then { s1 with vgNew := none } else s1

/-- lvmcache_save_vg: pick the slot, skip when the slot already holds the
seqno, else displace the slot contents and store the deep copy obtained
from the export/import round trip (represented by the same value).
Allocation-failure paths are not modelled. -/
def lvmcacheSaveVg (st : Cache) (vg : VolGroup) (precommitted : Bool) : Cache :=
  let isNew := precommitted
  let isOld := !precommitted
  match savedVgFromVgid st vg.vgid with
  | none =>
    let svg0 : SavedVg := { committed := false, vgOld := none, vgNew := none, toFree := [] }
    let svg1 := if isOld then { svg0 with vgOld := some vg } else { svg0 with vgNew := some vg }
    { st with savedVgHash := st.savedVgHash.map (fun h => (idTrunc vg.vgid, svg1) :: h) }
  | some svg =>
    if isOld && (match svg.vgOld with | some o => decide (o.seqno = vg.seqno) | none => false) then st
    else if isNew && (match svg.vgNew with | some o => decide (o.seqno = vg.seqno) | none => false) then st
    else
      let svg1 := savedVgInval svg isOld isNew
      let svg2 := if isOld then { svg1 with vgOld := some vg } else { svg1 with vgNew := some vg }
      updateSavedVg st vg.vgid svg2

/-- lvmcache_get_saved_vg: a precommitted request reads the new slot,
otherwise the old slot; when the new slot is returned while an old
snapshot with a strictly smaller seqno exists, the old one is displaced
eagerly.  The warnings change no state. -/
def lvmcacheGetSavedVg (st : Cache) (vgid : String) (precommitted : Bool) :
    Cache × Option VolGroup :=
  let isNew := precommitted
  match savedVgFromVgid st vgid with
  | none => (st, none)
  | some svg =>
    let vg? := if isNew then svg.vgNew else svg.vgOld
    match vg? with
    | none => (st, none)
    | some vg =>
      if isNew then
        match svg.vgOld with
        | some o =>
          if o.seqno < vg.seqno then
            (updateSavedVg st vgid (savedVgInval svg true false), some vg)
          else (st, some vg)
        | none => (st, some vg)
      else (st, some vg)

/-- lvmcache_get_saved_vg_latest: the committed flag selects the new
slot, else the old slot, with the same eager displacement rule. -/
def lvmcacheGetSavedVgLatest (st : Cache) (vgid : String) : Cache × Option VolGroup :=
  match savedVgFromVgid st vgid with
  | none => (st, none)
  | some svg =>
    if svg.committed then
      match svg.vgNew with
      | none => (st, none)
      | some vg =>
        match svg.vgOld with
        | some o =>
          if o.seqno < vg.seqno then
            (updateSavedVg st vgid (savedVgInval svg true false), some vg)
          else (st, some vg)
        | none => (st, some vg)
    else
      match svg.vgOld with
      | none => (st, none)
      | some vg => (st, some vg)

/-- lvmcache_commit_metadata: look the name up, then set the committed
flag of the saved slot; no snapshot moves. -/
def lvmcacheCommitMetadata (st : Cache) (vgname : String) : Cache :=
  match lvmcacheVginfoFromVgname st (some vgname) none with
  | none => st
  | some vId =>
    match getVg st vId with
    | none => st
    | some v =>
      match savedVgFromVgid st v.vgid with
      | none => st
      | some svg => updateSavedVg st v.vgid { svg with committed := true }

/-- _drop_metadata: resolve the name to a vgid, then free the requested
slots of its saved_vg. -/
def dropMetadataInner (st : Cache) (vgname : String) (dropPrecommitted : Bool) : Cache :=
  match lvmcacheVginfoFromVgname st (some vgname) none with
  | none => st
  | some vId =>
    match getVg st vId with
    | none => st
    | some v =>
      match savedVgFromVgid st v.vgid with
      | none => st
      | some svg =>
        if dropPrecommitted then updateSavedVg st v.vgid (savedVgFree svg false true)
        else updateSavedVg st v.vgid (savedVgFree svg true true)

/-- lvmcache_drop_metadata: a missing saved-VG hash (non-clvmd) or a held
global lock short-circuits; VG_ORPHANS is widened to the text-format
orphan name with both slots dropped. -/
def lvmcacheDropMetadata (st : Cache) (vgname : String) (dropPrecommitted : Bool) : Cache :=
  if st.savedVgHash.isNone then st
  else if lvmcacheVgnameIsLocked st VG_GLOBAL then st
  else if vgname = VG_ORPHANS then dropMetadataInner st FMT_TEXT_ORPHAN_VG_NAME false
  else dropMetadataInner st vgname dropPrecommitted

/-
  PV/VG attach-detach and vginfo lifecycle.
-/

/-- _vginfo_attach_info: set the back-pointer and append the info to the
vginfo's member list (dm_list_add appends at the tail). -/
def vginfoAttachInfo (st : Cache) (vId : Nat) (iId : Nat) : Cache :=
  match getInfo st iId with
  | none => st
  | some info =>
    let st1 := setInfo st iId { info with vginfo := some vId }
    match getVg st1 vId with
    | none => st1
    | some v => setVg st1 vId { v with infos := v.infos ++ [iId] }

/-- _vginfo_detach_info: unlink the info from its vginfo's member list
and null the back-pointer.  The C tests the intrusive list node for
emptiness; under the membership invariant that equals testing the
back-pointer. -/
def vginfoDetachInfo (st : Cache) (iId : Nat) : Cache :=
  match getInfo st iId with
  | none => st
  | some info =>
    let st1 :=
      match info.vginfo with
      | some vId =>
        match getVg st vId with
        | some v => setVg st vId { v with infos := v.infos.erase iId }
        | none => st
      | none => st
    setInfo st1 iId { info with vginfo := none }

/-- _free_vginfo: rewire the name chain (promote the successor when the
freed entry is the hash target, splice it out otherwise — the C removes
and reinserts the hash binding, which on an association list is a value
replacement), drop the vgid binding when it still points here, unlink
from the _vginfos list and release the record. -/
def freeVginfo (st : Cache) (vId : Nat) : Cache :=
  match getVg st vId with
  | none => st
  | some v =>
    let st1 :=
      match afind v.vgname st.vgnameChains with
      | none => st
      | some chain =>
        match chain with
        | [] => st
        | p :: rest =>
          if p = vId then
            if rest.isEmpty then { st with vgnameChains := aerase v.vgname st.vgnameChains }
            else { st with vgnameChains := aset v.vgname rest st.vgnameChains }
          else { st with vgnameChains := aset v.vgname (p :: rest.erase vId) st.vgnameChains }
    let st2 :=
      if v.vgid ≠ "" ∧ afind v.vgid st1.vgidHash = some vId then
        { st1 with vgidHash := aerase v.vgid st1.vgidHash }
      else st1
    let st3 := { st2 with vginfosOrder := st2.vginfosOrder.erase vId }
    { st3 with vgs := aerase vId st3.vgs }

/-- _drop_vginfo: detach the info when given, then free the vginfo iff
it is non-orphan and has no remaining members.  The hash re-insertion
failure of _free_vginfo cannot occur in the model, so the result is
always success. -/
def dropVginfo (st : Cache) (info? : Option Nat) (vId? : Option Nat) : Cache × Bool :=
  let st1 :=
    match info? with
    | some iId => vginfoDetachInfo st iId
    | none => st
  match vId? with
  | none => (st1, true)
  | some vId =>
    match getVg st1 vId with
    | none => (st1, true)
    | some v =>
      if isOrphanVg v.vgname ∨ v.infos ≠ [] then (st1, true)
      else (freeVginfo st1 vId, true)

/-- _lvmcache_update_vgid: nothing to do when the vgid is NULL, the
vginfo is NULL or the first ID_LEN bytes already match; otherwise move
the vgid binding.  The info argument is only used for logging. -/
def lvmcacheUpdateVgid (st : Cache) (vId? : Option Nat) (vgid? : Option String) : Cache :=
  match vgid?, vId? with
  | none, _ => st
  | _, none => st
  | some vgid, some vId =>
    match getVg st vId with
    | none => st
    | some v =>
      if idTrunc v.vgid = idTrunc vgid then st
      else
        let st1 := if v.vgid ≠ "" then { st with vgidHash := aerase v.vgid st.vgidHash } else st
        let v2 := { v with vgid := idTrunc vgid }
        let st2 := setVg st1 vId v2
        { st2 with vgidHash := (v2.vgid, vId) :: st2.vgidHash }

/-- _insert_vginfo: rank the new vginfo against the current primary
(pre-existing and unexported entries win, then creation-host rules) and
either make it the new hash target with the old primary chained behind
it, or append it at the chain tail. -/
def insertVginfo (st : Cache) (newId : Nat) (vgname : String) (vgstatus : Nat)
    (creationHost? : Option String) (primary? : Option Nat) : Cache :=
  match primary? with
  | none => { st with vgnameChains := (vgname, [newId]) :: st.vgnameChains }
  | some pId =>
    match getVg st pId with
    | none => st
    | some p =>
      let useNew :=
        if Nat.land p.status EXPORTED_VG = 0 ∧ Nat.land vgstatus EXPORTED_VG ≠ 0 then false
        else if Nat.land p.status EXPORTED_VG ≠ 0 ∧ Nat.land vgstatus EXPORTED_VG = 0 then true
        else if p.creationHost = some st.hostname then false
        else if p.creationHost = none ∧ creationHost?.isSome then true
        else if creationHost? = some st.hostname then true
        else false
      let chain := chainOf st vgname
      if useNew then { st with vgnameChains := aset vgname (newId :: chain) st.vgnameChains }
      else { st with vgnameChains := aset vgname (chain ++ [newId]) st.vgnameChains }

/-- _lvmcache_update_vgname: nothing to do when the name is NULL or the
info already sits under this name; otherwise detach (possibly freeing
the old vginfo), find or create the target vginfo (chain-insertion
policy, orphans at the tail of _vginfos, real VGs at the head), attach
or (for the orphan path) update the vgid binding, propagate the lock
state and record the format. -/
def lvmcacheUpdateVgname (st : Cache) (info? : Option Nat) (vgname? : Option String)
    (vgid? : Option String) (vgstatus : Nat) (creationHost? : Option String) (fmt : Nat) :
    Cache :=
  match vgname? with
  | none => st
  | some vgname =>
    if (match info? with
        | some iId => decide (infoVginfoVgname st iId = some vgname)
        | none => false) then st
    else
      let st1 :=
        match info? with
        | some iId => (dropVginfo st (some iId) ((getInfo st iId).bind Info.vginfo)).1
        | none => st
      let found := lvmcacheVginfoFromVgname st1 (some vgname) vgid?
      let stv :=
        match found with
        | some vId => (st1, vId)
        | none =>
          let newId := st1.nextVgId
          let v : VgInfo :=
            { vgname := vgname, vgid := "", status := 0, creationHost := none,
              lockType := none, systemId := none, mdaChecksum := 0, mdaSize := 0,
              seqno := 0, independentMetadataLocation := false,
              scanSummaryMismatch := false, fmt := 0, infos := [] }
          let st2 := { st1 with vgs := (newId, v) :: st1.vgs, nextVgId := newId + 1 }
          let primary? := lvmcacheVginfoFromVgname st2 (some vgname) none
          let st3 := insertVginfo st2 newId vgname vgstatus creationHost? primary?
          let st4 :=
            if isOrphanVg vgname then { st3 with vginfosOrder := st3.vginfosOrder ++ [newId] }
            else { st3 with vginfosOrder := newId :: st3.vginfosOrder }
          (st4, newId)
      let st5 := stv.1
      let vId := stv.2
      let st6 :=
        match info? with
        | some iId => vginfoAttachInfo st5 vId iId
        | none => lvmcacheUpdateVgid st5 (some vId) vgid?
      let st7 := updateCacheVginfoLockState st6 vId (lvmcacheVgnameIsLocked st6 vgname)
      match getVg st7 vId with
      | none => st7
      | some v => setVg st7 vId { v with fmt := fmt }

/-- _lvmcache_update_vgstatus: rewrite status and, only when the value
actually changes, the creation-host, lock-type and system-id strings. -/
def lvmcacheUpdateVgstatus (st : Cache) (iId : Nat) (vgstatus : Nat)
    (creationHost? lockType? systemId? : Option String) : Cache :=
  match getInfo st iId with
  | none => st
  | some info =>
    match info.vginfo with
    | none => st
    | some vId =>
      match getVg st vId with
      | none => st
      | some v =>
        let v1 := { v with status := vgstatus }
        let v2 :=
          match creationHost? with
          | none => v1
          | some ch => if v1.creationHost = some ch then v1 else { v1 with creationHost := some ch }
        let v3 :=
          match lockType? with
          | none => v2
          | some lt => if v2.lockType = some lt then v2 else { v2 with lockType := some lt }
        let v4 :=
          match systemId? with
          | none => v3
          | some si => if v3.systemId = some si then v3 else { v3 with systemId := some si }
        setVg st vId v4

/-- The mda_size / mda_checksum half of the witness reconciliation,
followed by the vgstatus update. -/
def updateVgMda (st : Cache) (iId : Nat) (vId : Nat) (s : VgSummary) : Cache × Bool :=
  match getVg st vId with
  | none => (st, true)
  | some v =>
    if v.mdaSize = 0 then
      let st1 := setVg st vId { v with mdaChecksum := s.mdaChecksum, mdaSize := s.mdaSize }
      (lvmcacheUpdateVgstatus st1 iId s.vgstatus s.creationHost s.lockType s.systemId, true)
    else if v.mdaSize ≠ s.mdaSize ∨ v.mdaChecksum ≠ s.mdaChecksum then
      (setVg st vId { v with scanSummaryMismatch := true }, true)
    else
      (lvmcacheUpdateVgstatus st iId s.vgstatus s.creationHost s.lockType s.systemId, true)

/-- Witness reconciliation tail of lvmcache_update_vgname_and_id: record
the first seqno and mda witness, flag scan_summary_mismatch and return
success on any later disagreement (the info is deliberately kept so the
device can be rescanned or repaired). -/
def updateVgWitness (st : Cache) (iId : Nat) (s : VgSummary) : Cache × Bool :=
  match (getInfo st iId).bind Info.vginfo with
  | none => (st, true)
  | some vId =>
    match getVg st vId with
    | none => (st, true)
    | some v =>
      if v.seqno = 0 then
        updateVgMda (setVg st vId { v with seqno := s.seqno }) iId vId s
      else if s.seqno ≠ v.seqno then
        (setVg st vId { v with scanSummaryMismatch := true }, true)
      else updateVgMda st iId vId s

/-- lvmcache_update_vgname_and_id.  A NULL vgname with no current vginfo
falls back to the orphan VG; an mda-less PV already in a real VG is not
moved to the orphan VG during a critical section; then the vgname and
vgid updates run and, when the summary carries a witness, the
reconciliation tail.  The only failure paths of the C function are
allocation and hash-insertion failures, which the model cannot hit. -/
def lvmcacheUpdateVgnameAndId (st : Cache) (iId : Nat) (s : VgSummary) : Cache × Bool :=
  match getInfo st iId with
  | none => (st, false)
  | some info =>
    let vgname? := if s.vgname.isNone ∧ info.vginfo.isNone
                   then some FMT_TEXT_ORPHAN_VG_NAME else s.vgname
    let vgid := if s.vgname.isNone ∧ info.vginfo.isNone
                then FMT_TEXT_ORPHAN_VG_NAME else s.vgid
    if isOrphanVgOpt vgname? = true ∧ info.vginfo.isSome = true ∧
       info.mdasEmptyOrIgnored = true ∧
       isOrphanVgOpt (infoVginfoVgname st iId) = false ∧ st.criticalSection = true then
      (st, true)
    else
      let st1 := lvmcacheUpdateVgname st (some iId) vgname? (some vgid) s.vgstatus
                   s.creationHost info.fmt
      let st2 := lvmcacheUpdateVgid st1 ((getInfo st1 iId).bind Info.vginfo) (some vgid)
      if s.seqno = 0 ∧ s.mdaSize = 0 ∧ s.mdaChecksum = 0 then (st2, true)
      else updateVgWitness st2 iId s

/-- _create_info: a fresh info for a device, with an empty mda list. -/
def createInfo (st : Cache) (labeller : Nat) (dev : Nat) : Cache × Nat :=
  let newId := st.nextInfoId
  let info : Info :=
    { dev := dev, vginfo := none, status := 0, mdasEmptyOrIgnored := true,
      labeller := labeller, fmt := labeller }
  ({ st with infos := (newId, info) :: st.infos, nextInfoId := newId + 1 }, newId)

/-- The tail of lvmcache_add after an info was found or created: refresh
the pvid binding when needed and run the update pipeline with a
witness-free summary. -/
def lvmcacheAddTail (st : Cache) (iId : Nat) (created : Bool) (pvidS : String)
    (vgname? : Option String) (vgid? : Option String) (vgstatus : Nat) : Cache × Option Nat :=
  match getInfo st iId with
  | none => (st, none)
  | some info =>
    let st1 :=
      if afind pvidS st.pvidHash = some iId ∧ devPvid st info.dev = pvidS then st
      else
        let sta := if devPvid st info.dev ≠ "" then
                     { st with pvidHash := aerase (devPvid st info.dev) st.pvidHash }
                   else st
        let stb := setDevPvid sta info.dev pvidS
        { stb with pvidHash := (pvidS, iId) :: stb.pvidHash }
    let s : VgSummary :=
      { vgname := vgname?, vgid := (match vgid? with | some g => idTrunc g | none => ""),
        vgstatus := vgstatus, creationHost := none, lockType := none, systemId := none,
        seqno := 0, mdaSize := 0, mdaChecksum := 0 }
    let r := lvmcacheUpdateVgnameAndId st1 iId s
    if r.2 then (r.1, some iId)
    else
      if created then
        let stc := { r.1 with pvidHash := aerase pvidS r.1.pvidHash }
        let std := setDevPvid stc info.dev ""
        ({ std with infos := aerase iId std.infos }, none)
      else (r.1, none)

/-- lvmcache_add.  An existing info bound to a different device is the
duplicate path: warn, raise the found-duplicates flag, stamp the pvid
onto the new device, append it to _found_duplicate_devs (keeping the
registry on the old device) and return NULL. -/
def lvmcacheAdd (st : Cache) (labeller : Nat) (pvid : String) (dev : Nat)
    (vgname? : Option String) (vgid? : Option String) (vgstatus : Nat) : Cache × Option Nat :=
  let pvidS := idTrunc pvid
  let found :=
    match lvmcacheInfoFromPvid st pvidS none with
    | some iId => some iId
    | none => lvmcacheInfoFromPvid st (devPvid st dev) none
  match found with
  | none =>
    let r := createInfo st labeller dev
    lvmcacheAddTail r.1 r.2 true pvidS vgname? vgid? vgstatus
  | some iId =>
    match getInfo st iId with
    | none => (st, none)
    | some info =>
      if info.dev ≠ dev then
        let st1 := { st with foundDuplicatePvs := true }
        let st2 := setDevPvid st1 dev pvidS
        let st3 := { st2 with foundDuplicateDevs := st2.foundDuplicateDevs ++ [dev] }
        (st3, none)
      else
        let st1 := if info.labeller ≠ labeller
                   then setInfo st iId { info with labeller := labeller } else st
        lvmcacheAddTail st1 iId false pvidS vgname? vgid? vgstatus

/-- Does the pvid of an unused duplicate resolve to a cache info whose
device has the MD major?  The C dereferences the info without a NULL
check; a missing info (which would crash the C) keeps the entry. -/
def unusedDupCachedIsMd (st : Cache) (d : Nat) : Bool :=
  match lvmcacheInfoFromPvid st (devPvid st d) none with
  | some iId =>
    match getInfo st iId with
    | some info => devMajorOf st info.dev = st.mdMajor
    | none => false
  | none => false

/-- _filter_duplicate_devs: silently drop from _unused_duplicate_devs
every entry whose pvid's cache info sits on a device with the MD major
(an md component). -/
def filterDuplicateDevs (st : Cache) : Cache :=
  { st with unusedDuplicateDevs :=
      st.unusedDuplicateDevs.filter (fun d => !unusedDupCachedIsMd st d) }

/-- lvmcache_scan_mismatch: NULL arguments or a missing vginfo report a
mismatch; otherwise the recorded flag. -/
def lvmcacheScanMismatch (st : Cache) (vgname? : Option String) (vgid? : Option String) : Bool :=
  match vgname?, vgid? with
  | some _, some vgid =>
    (match lvmcacheVginfoFromVgid st (some vgid) with
     | some vId =>
       match getVg st vId with
       | some v => v.scanSummaryMismatch
       | none => true
     | none => true)
  | _, _ => true

/-
  Concrete example states used by the witness and counterexample
  theorems below.
-/

/-- A vginfo for VG "vg0" with id "G1" whose only member is info 0. -/
def vgExample : VgInfo :=
  { vgname := "vg0", vgid := "G1", status := 0, creationHost := none, lockType := none,
    systemId := none, mdaChecksum := 0, mdaSize := 0, seqno := 0,
    independentMetadataLocation := false, scanSummaryMismatch := false, fmt := 0, infos := [0] }

/-- vgExample after recording a witness: seqno 5, mda size 100, mda
checksum 43690 (0xAAAA). -/
def vgWitnessed : VgInfo := { vgExample with seqno := 5, mdaSize := 100, mdaChecksum := 43690 }

/-- Info 0 on device 10 (devA), attached to vginfo 0, with usable mdas. -/
def infoExample : Info :=
  { dev := 10, vginfo := some 0, status := 0, mdasEmptyOrIgnored := false,
    labeller := 5, fmt := 5 }

/-- Info 0 on device 10 with no usable mdas (mdas empty or ignored). -/
def infoMdaless : Info := { infoExample with mdasEmptyOrIgnored := true }

/-- A cache holding PV "P1" on device 10 inside "vg0"; device 11 exists
with a blank pvid. -/
def stSimple : Cache :=
  { emptyCache with
    pvidHash := [("P1", 0)]
    infos := [(0, infoExample)]
    devPvids := [(10, "P1"), (11, "")]
    vgnameChains := [("vg0", [0])]
    vgs := [(0, vgExample)]
    vgidHash := [("G1", 0)] }

/-- stSimple with the witness fields of the vginfo populated. -/
def stWitnessed : Cache := { stSimple with vgs := [(0, vgWitnessed)] }

/-- A summary from a second device of vg0 disagreeing in seqno. -/
def summaryMismatch : VgSummary :=
  { vgname := some "vg0", vgid := "G1", vgstatus := 0, creationHost := none,
    lockType := none, systemId := none, seqno := 6, mdaSize := 100, mdaChecksum := 43690 }

/-- A summary moving a PV to the orphan VG. -/
def summaryOrphan : VgSummary :=
  { vgname := some FMT_TEXT_ORPHAN_VG_NAME, vgid := FMT_TEXT_ORPHAN_VG_NAME, vgstatus := 0,
    creationHost := none, lockType := none, systemId := none,
    seqno := 0, mdaSize := 0, mdaChecksum := 0 }

/-- stSimple with an mda-less PV and a critical section in progress. -/
def stMdaless : Cache :=
  { stSimple with
    infos := [(0, infoMdaless)]
    criticalSection := true }

/-- Two saved snapshots of vg0: the committed copy with seqno 1 and the
precommitted copy with seqno 2. -/
def vgOldExample : VolGroup := { name := "vg0", vgid := "G1", seqno := 1 }

/-- The precommitted snapshot with seqno 2. -/
def vgNewExample : VolGroup := { name := "vg0", vgid := "G1", seqno := 2 }

/-- A clvmd cache (saved-VG hash present) that knows vg0/G1. -/
def stSaved0 : Cache :=
  { emptyCache with
    vgnameChains := [("vg0", [0])]
    vgs := [(0, vgExample)]
    vgidHash := [("G1", 0)]
    savedVgHash := some [] }

/-- stSaved0 after save(old), save(new precommitted) and commit. -/
def stSavedCommitted : Cache :=
  lvmcacheCommitMetadata
    (lvmcacheSaveVg (lvmcacheSaveVg stSaved0 vgOldExample false) vgNewExample true) "vg0"

/-- A cache whose unused-duplicates list holds device 11 (major 8) while
the cache info for the shared pvid sits on device 10 (major 9, the MD
major). -/
def stUnusedMd : Cache :=
  { emptyCache with
    unusedDuplicateDevs := [11]
    devPvids := [(11, "P1"), (10, "P1")]
    devMajors := [(11, 8), (10, 9)]
    mdMajor := 9
    pvidHash := [("P1", 0)]
    infos := [(0, infoExample)] }

/-- A lock registry holding only "b". -/
def stLockB : Cache := { emptyCache with lockHash := ["b"] }

/-- A lock registry holding only "a". -/
def stLockA : Cache := { emptyCache with lockHash := ["a"] }

/-- A registry in which one non-global VG lock ("a") is already held. -/
def stLockedOne : Cache := { emptyCache with lockHash := ["a"], vgsLocked := 1 }

/-- A clvmd cache with the global lock held. -/
def stGlobalHeld : Cache :=
  { emptyCache with savedVgHash := some [], lockHash := [VG_GLOBAL] }

/-- Duplicate-ladder attributes: a plain device. -/
def attrPlain : DupDevAttrs :=
  { prevUnchosenMain := false, prevUnchosenCmd := false, hasLv := false,
    sameSize := false, hasFs := false, isDm := false, inSubsys := false }

/-- Duplicate-ladder attributes: a device used by an LV. -/
def attrLv : DupDevAttrs := { attrPlain with hasLv := true }

/-- Duplicate-ladder attributes: a device with the correct size. -/
def attrSize : DupDevAttrs := { attrPlain with sameSize := true }

/-- Duplicate-ladder attributes: an LV-used device with the correct
size. -/
def attrLvSize : DupDevAttrs := { attrLv with sameSize := true }

/-
  Theorems.  First some bookkeeping lemmas about the association-list
  helpers and the identifier truncation, then one theorem per claim.
-/

theorem afind_eq_none_of_not_mem {κ α : Type} [DecidableEq κ] (k : κ) (l : List (κ × α))
    (h : k ∉ l.map Prod.fst) : afind k l = none := by
  induction l with
  | nil => rfl
  | cons e t ih =>
    simp only [List.map_cons, List.mem_cons, not_or] at h
    simp only [afind, if_neg (fun he : e.1 = k => h.1 he.symm)]
    exact ih h.2

theorem afind_aset_self {κ α : Type} [DecidableEq κ] (k : κ) (v w : α) (l : List (κ × α))
    (h : afind k l = some w) : afind k (aset k v l) = some v := by
  induction l with
  | nil => simp [afind] at h
  | cons e t ih =>
    by_cases he : e.1 = k
    · simp [aset, afind, he]
    · simp only [afind, if_neg he] at h
      simp only [aset, if_neg he, afind, if_neg he]
      exact ih h

theorem keys_aset {κ α : Type} [DecidableEq κ] (k : κ) (v : α) (l : List (κ × α)) :
    (aset k v l).map Prod.fst = l.map Prod.fst := by
  induction l with
  | nil => rfl
  | cons e t ih =>
    by_cases he : e.1 = k
    · simp [aset, he]
    · simp [aset, he, ih]

theorem afind_aerase_self {κ α : Type} [DecidableEq κ] (k : κ) (l : List (κ × α))
    (h : (l.map Prod.fst).Nodup) : afind k (aerase k l) = none := by
  induction l with
  | nil => rfl
  | cons e t ih =>
    simp only [List.map_cons, List.nodup_cons] at h
    by_cases he : e.1 = k
    · simp only [aerase, if_pos he]
      exact afind_eq_none_of_not_mem k t (he ▸ h.1)
    · simp only [aerase, if_neg he, afind, if_neg he]
      exact ih h.2

theorem idTrunc_idem (s : String) : idTrunc (idTrunc s) = idTrunc s := by
  simp [idTrunc, List.take_take]

/-- C4: unless ordering suppression is enabled, verify_order(new) fails
if and only if some key currently in the lock index does not precede new
under the precedes relation (VG_GLOBAL first, orphans last, strict
lexicographic order otherwise). -/
theorem verifyLockOrder_false_iff (st : Cache) (vgname : String)
    (h : st.suppressLockOrdering = false) :
    lvmcacheVerifyLockOrder st vgname = false ↔
      ∃ k ∈ st.lockHash, vgnameOrderCorrect k vgname = false := by
  unfold lvmcacheVerifyLockOrder
  rw [h]
  simp only [Bool.false_eq_true, if_false]
  rw [← Bool.not_eq_true, List.all_eq_true]
  constructor
  · intro hf
    by_contra hc
    push_neg at hc
    exact hf (fun k hk => by
      have := hc k hk
      cases hb : vgnameOrderCorrect k vgname with
      | false => exact absurd hb this
      | true => rfl)
  · rintro ⟨k, hk, hfalse⟩ hall
    have := hall k hk
    rw [hfalse] at this
    exact Bool.false_ne_true this

/-- C4 witness: with only "a" held, locking "b" passes the order check;
with only "b" held, the order check for "a" fails. -/
theorem verifyLockOrder_false_iff_witness :
    lvmcacheVerifyLockOrder stLockB "a" = false ∧
      lvmcacheVerifyLockOrder stLockA "b" = true := by
  constructor
  · exact (verifyLockOrder_false_iff stLockB "a" rfl).mpr ⟨"b", by decide, by decide⟩
  · decide

/-- C10: lvmcache_drop_metadata is a no-op (no snapshot freed, no state
changed) when the saved-VG hash does not exist (non-cluster-daemon mode)
or when the VG_GLOBAL lock is currently held. -/
theorem dropMetadata_noop (st : Cache) (vgname : String) (dropPrecommitted : Bool)
    (h : st.savedVgHash = none ∨ VG_GLOBAL ∈ st.lockHash) :
    lvmcacheDropMetadata st vgname dropPrecommitted = st := by
  unfold lvmcacheDropMetadata
  rcases h with h | h
  · rw [h]
    rfl
  · have hlock : lvmcacheVgnameIsLocked st VG_GLOBAL = true := by
      unfold lvmcacheVgnameIsLocked
      have : isOrphanVg VG_GLOBAL = false := by decide
      rw [this]
      simpa using h
    rw [hlock]
    by_cases hs : st.savedVgHash.isNone <;> simp [hs]

/-- C10 witness: dropping metadata with the global lock held in a clvmd
cache, and in a cache without the saved-VG hash, changes nothing. -/
theorem dropMetadata_noop_witness :
    lvmcacheDropMetadata stGlobalHeld "vg0" false = stGlobalHeld ∧
      lvmcacheDropMetadata stSimple "vg0" true = stSimple := by
  constructor
  · exact dropMetadata_noop stGlobalHeld "vg0" false (Or.inr (by decide))
  · exact dropMetadata_noop stSimple "vg0" true (Or.inl rfl)

/-- C6: the code contradicts its own promotion-rule comment.  After
save(old seqno 1), save(new seqno 2, precommitted), commit and
get_latest, the new snapshot is returned and the displaced old snapshot
sits on the deferred-free list; but a subsequent get(vgid, current)
returns nothing instead of the promoted new snapshot. -/
theorem savedVg_promotion_divergence :
    (lvmcacheGetSavedVgLatest stSavedCommitted "G1").2 = some vgNewExample ∧
    savedVgFromVgid (lvmcacheGetSavedVgLatest stSavedCommitted "G1").1 "G1" =
      some { committed := true, vgOld := none, vgNew := some vgNewExample,
             toFree := [vgOldExample] } ∧
    (lvmcacheGetSavedVg (lvmcacheGetSavedVgLatest stSavedCommitted "G1").1 "G1" false).2 =
      none := by
  refine ⟨?_, ?_, ?_⟩ <;> decide

/-- C7 amended: the post-filter drops from unused_duplicates exactly the
entries whose pvid resolves to a cache info whose device (the chosen
device, not the listed one) has the MD major; the filter is silent. -/
theorem filterDuplicateDevs_mem_iff (st : Cache) (d : Nat) :
    d ∈ (filterDuplicateDevs st).unusedDuplicateDevs ↔
      d ∈ st.unusedDuplicateDevs ∧ unusedDupCachedIsMd st d = false := by
  unfold filterDuplicateDevs
  simp [List.mem_filter]

/-- C7 counterexample: device 11 (major 8, not the MD major 9) is
removed from the unused-duplicates list because the cache info for its
pvid sits on device 10 whose major is the MD major — refuting the claim
that only devices whose own major is the MD major are removed. -/
theorem filterDuplicateDevs_counterexample :
    (filterDuplicateDevs stUnusedMd).unusedDuplicateDevs = [] ∧
      devMajorOf stUnusedMd 11 ≠ stUnusedMd.mdMajor ∧
      (11 : Nat) ∈ stUnusedMd.unusedDuplicateDevs := by
  refine ⟨?_, ?_, ?_⟩ <;> decide

theorem encodeKey_lt_pow (l : List Bool) : encodeKey l < 2 ^ l.length := by
  induction l with
  | nil => decide
  | cons b t ih =>
    have hp : 0 < 2 ^ t.length := Nat.pos_pow_of_pos _ (by decide)
    cases b <;> simp [encodeKey, nbad, pow_succ, List.length_cons] <;> omega

theorem prevPair_change (d1 d2 : DupDevAttrs) :
    ((prevUnchosenPair d1 d2).1 && !(prevUnchosenPair d1 d2).2) =
      decide (rank1 d2 < rank1 d1) := by
  rcases d1 with ⟨m1, c1, l1, s1, f1, dm1, y1⟩
  rcases d2 with ⟨m2, c2, l2, s2, f2, dm2, y2⟩
  cases m1 <;> cases m2 <;> cases c1 <;> cases c2 <;> rfl

theorem prevPair_keep (d1 d2 : DupDevAttrs) :
    ((prevUnchosenPair d1 d2).2 && !(prevUnchosenPair d1 d2).1) =
      decide (rank1 d1 < rank1 d2) := by
  rcases d1 with ⟨m1, c1, l1, s1, f1, dm1, y1⟩
  rcases d2 with ⟨m2, c2, l2, s2, f2, dm2, y2⟩
  cases m1 <;> cases m2 <;> cases c1 <;> cases c2 <;> rfl

theorem tailChange_eq_key (l1 s1 f1 dm1 y1 l2 s2 f2 dm2 y2 : Bool) :
    (if l1 && !l2 then false
     else if l2 && !l1 then true
     else if s1 && !s2 then false
     else if s2 && !s1 then true
     else if f1 && !f2 then false
     else if f2 && !f1 then true
     else if dm1 && !dm2 then false
     else if dm2 && !dm1 then true
     else if y1 && !y2 then false
     else if y2 && !y1 then true
     else false) =
      decide (encodeKey [l2, s2, f2, dm2, y2] < encodeKey [l1, s1, f1, dm1, y1]) := by
  cases l1 <;> cases l2 <;> cases s1 <;> cases s2 <;> cases f1 <;> cases f2 <;>
    cases dm1 <;> cases dm2 <;> cases y1 <;> cases y2 <;> rfl

theorem duplicateChange_eq_key (d1 d2 : DupDevAttrs) :
    duplicateChange d1 d2 = decide (ladderKey d2 < ladderKey d1) := by
  have hb1 := encodeKey_lt_pow [d1.hasLv, d1.sameSize, d1.hasFs, d1.isDm, d1.inSubsys]
  have hb2 := encodeKey_lt_pow [d2.hasLv, d2.sameSize, d2.hasFs, d2.isDm, d2.inSubsys]
  simp only [List.length_cons, List.length_nil] at hb1 hb2
  norm_num at hb1 hb2
  unfold duplicateChange ladderKey
  simp only [prevPair_change, prevPair_keep]
  rcases Nat.lt_trichotomy (rank1 d1) (rank1 d2) with h | h | h
  · have hd1 : decide (rank1 d2 < rank1 d1) = false := decide_eq_false (Nat.lt_asymm h)
    have hd2 : decide (rank1 d1 < rank1 d2) = true := decide_eq_true h
    rw [hd1, hd2]
    have hk : ¬ (rank1 d2 * 32 +
        encodeKey [d2.hasLv, d2.sameSize, d2.hasFs, d2.isDm, d2.inSubsys] <
        rank1 d1 * 32 +
        encodeKey [d1.hasLv, d1.sameSize, d1.hasFs, d1.isDm, d1.inSubsys]) := by omega
    simp [hk]
  · have hd1 : decide (rank1 d2 < rank1 d1) = false := decide_eq_false (by omega)
    have hd2 : decide (rank1 d1 < rank1 d2) = false := decide_eq_false (by omega)
    rw [hd1, hd2]
    simp only [Bool.false_eq_true, if_false]
    rw [tailChange_eq_key]
    have hiff : (encodeKey [d2.hasLv, d2.sameSize, d2.hasFs, d2.isDm, d2.inSubsys] <
        encodeKey [d1.hasLv, d1.sameSize, d1.hasFs, d1.isDm, d1.inSubsys]) ↔
        (rank1 d2 * 32 +
          encodeKey [d2.hasLv, d2.sameSize, d2.hasFs, d2.isDm, d2.inSubsys] <
          rank1 d1 * 32 +
          encodeKey [d1.hasLv, d1.sameSize, d1.hasFs, d1.isDm, d1.inSubsys]) := by omega
    exact decide_eq_decide.mpr hiff
  · have hd1 : decide (rank1 d2 < rank1 d1) = true := decide_eq_true h
    rw [hd1]
    have hk : rank1 d2 * 32 +
        encodeKey [d2.hasLv, d2.sameSize, d2.hasFs, d2.isDm, d2.inSubsys] <
        rank1 d1 * 32 +
        encodeKey [d1.hasLv, d1.sameSize, d1.hasFs, d1.isDm, d1.inSubsys] := by omega
    simp [hk]

theorem duplicateChange_key_lt (d1 d2 : DupDevAttrs) (h : duplicateChange d1 d2 = true) :
    ladderKey d2 < ladderKey d1 := by
  rw [duplicateChange_eq_key] at h
  exact of_decide_eq_true h

theorem duplicateChange_key_ge (d1 d2 : DupDevAttrs) (h : duplicateChange d1 d2 = false) :
    ladderKey d1 ≤ ladderKey d2 := by
  rw [duplicateChange_eq_key] at h
  exact Nat.le_of_not_lt (of_decide_eq_false h)

theorem chooseDuplicateDev_mem (c : DupDevAttrs) (alts : List DupDevAttrs) :
    chooseDuplicateDev c alts ∈ c :: alts := by
  induction alts generalizing c with
  | nil => simp [chooseDuplicateDev]
  | cons a t ih =>
    by_cases hc : duplicateChange c a = true
    · have hfold : chooseDuplicateDev c (a :: t) = chooseDuplicateDev a t := by
        simp [chooseDuplicateDev, hc]
      rw [hfold]
      rcases List.mem_cons.mp (ih a) with hm | hm
      · rw [hm]; exact List.mem_cons_of_mem _ (List.mem_cons_self a t)
      · exact List.mem_cons_of_mem _ (List.mem_cons_of_mem _ hm)
    · have hfold : chooseDuplicateDev c (a :: t) = chooseDuplicateDev c t := by
        simp [chooseDuplicateDev, hc]
      rw [hfold]
      rcases List.mem_cons.mp (ih c) with hm | hm
      · rw [hm]; exact List.mem_cons_self c (a :: t)
      · exact List.mem_cons_of_mem _ (List.mem_cons_of_mem _ hm)

theorem chooseDuplicateDev_key_le (c : DupDevAttrs) (alts : List DupDevAttrs) :
    ∀ x ∈ c :: alts, ladderKey (chooseDuplicateDev c alts) ≤ ladderKey x := by
  induction alts generalizing c with
  | nil =>
    intro x hx
    rcases List.mem_cons.mp hx with hx | hx
    · subst hx; exact Nat.le_refl _
    · cases hx
  | cons a t ih =>
    intro x hx
    by_cases hc : duplicateChange c a = true
    · have hfold : chooseDuplicateDev c (a :: t) = chooseDuplicateDev a t := by
        simp [chooseDuplicateDev, hc]
      rw [hfold]
      have hac : ladderKey a ≤ ladderKey c := Nat.le_of_lt (duplicateChange_key_lt c a hc)
      have hha : ladderKey (chooseDuplicateDev a t) ≤ ladderKey a :=
        ih a a (List.mem_cons_self a t)
      rcases List.mem_cons.mp hx with hx | hx
      · subst hx; exact Nat.le_trans hha hac
      · rcases List.mem_cons.mp hx with hx | hx
        · subst hx; exact hha
        · exact ih a x (List.mem_cons_of_mem _ hx)
    · have hfold : chooseDuplicateDev c (a :: t) = chooseDuplicateDev c t := by
        simp [chooseDuplicateDev, hc]
      rw [hfold]
      have hca : ladderKey c ≤ ladderKey a :=
        duplicateChange_key_ge c a (Bool.eq_false_iff.mpr hc)
      have hhc : ladderKey (chooseDuplicateDev c t) ≤ ladderKey c :=
        ih c c (List.mem_cons_self c t)
      rcases List.mem_cons.mp hx with hx | hx
      · subst hx; exact hhc
      · rcases List.mem_cons.mp hx with hx | hx
        · subst hx; exact Nat.le_trans hhc hca
        · exact ih c x (List.mem_cons_of_mem _ hx)

/-- C2: the device the comparison loop of _choose_preferred_devs leaves
chosen for a duplicate group is a member of the group and satisfies the
priority ladder against every other device of the group (no other device
would replace it); and the ladder's strict preference is antisymmetric
and transitive, so the pairwise left-fold starting from the device
currently in the registry computes a group-wide maximum. -/
theorem choosePreferred_ladder_max (current : DupDevAttrs) (alts : List DupDevAttrs) :
    (chooseDuplicateDev current alts ∈ current :: alts ∧
      ∀ a ∈ current :: alts, duplicateChange (chooseDuplicateDev current alts) a = false) ∧
    (∀ x y : DupDevAttrs, ¬(duplicateChange x y = true ∧ duplicateChange y x = true)) ∧
    (∀ x y z : DupDevAttrs, duplicateChange x y = true → duplicateChange y z = true →
      duplicateChange x z = true) := by
  refine ⟨⟨chooseDuplicateDev_mem current alts, ?_⟩, ?_, ?_⟩
  · intro a ha
    rw [duplicateChange_eq_key]
    exact decide_eq_false
      (Nat.not_lt.mpr (chooseDuplicateDev_key_le current alts a ha))
  · rintro x y ⟨h1, h2⟩
    exact Nat.lt_asymm (duplicateChange_key_lt x y h1) (duplicateChange_key_lt y x h2)
  · intro x y z h1 h2
    rw [duplicateChange_eq_key]
    exact decide_eq_true
      (Nat.lt_trans (duplicateChange_key_lt y z h2) (duplicateChange_key_lt x y h1))

/-- C2 witness: with a plain current device and one LV-used alternate,
the chosen device is not displaced by the plain device; and the ladder
relation applied at concrete attributes is transitive. -/
theorem choosePreferred_ladder_max_witness :
    duplicateChange (chooseDuplicateDev attrPlain [attrLv]) attrPlain = false ∧
      duplicateChange attrPlain attrLvSize = true :=
  ⟨(choosePreferred_ladder_max attrPlain [attrLv]).1.2 attrPlain (by decide),
   (choosePreferred_ladder_max attrPlain [attrLv]).2.2 attrPlain attrLv attrLvSize
     (by decide) (by decide)⟩

theorem ldiff_lor_two (s : Nat) (h : s.testBit 1 = false) :
    Nat.ldiff (s ||| 2) 2 = s := by
  apply Nat.eq_of_testBit_eq
  intro i
  rw [Nat.testBit_ldiff, Nat.testBit_lor]
  by_cases hi : i = 1
  · subst hi
    have h2 : Nat.testBit 2 1 = true := by decide
    simp [h, h2]
  · have h2 : Nat.testBit 2 i = false := by
      have he : (2 : Nat) = 2 ^ 1 := by norm_num
      rw [he]
      exact Nat.testBit_two_pow_of_ne (fun hx => hi hx.symm)
    simp [h2]

theorem setInfoLockState_roundtrip (i : Info) (h : i.status.testBit 1 = false) :
    setInfoLockState false (setInfoLockState true i) = i := by
  show { i with status := Nat.ldiff (i.status ||| 2) 2 } = i
  rw [ldiff_lor_two i.status h]

theorem lockState_map_roundtrip (infos : List (Nat × Info)) (mem : List Nat)
    (hb : ∀ e ∈ infos, e.1 ∈ mem → e.2.status.testBit 1 = false) :
    ((infos.map (fun e => if e.1 ∈ mem then (e.1, setInfoLockState true e.2) else e)).map
      (fun e => if e.1 ∈ mem then (e.1, setInfoLockState false e.2) else e)) = infos := by
  induction infos with
  | nil => rfl
  | cons e t ih =>
    rw [List.map_cons, List.map_cons]
    by_cases hm : e.1 ∈ mem
    · have hbe := hb e (List.mem_cons_self e t) hm
      simp only [hm, if_true, setInfoLockState_roundtrip e.2 hbe, Prod.mk.eta]
      rw [ih (fun x hx => hb x (List.mem_cons_of_mem e hx))]
    · simp only [hm, if_false]
      rw [ih (fun x hx => hb x (List.mem_cons_of_mem e hx))]

theorem updateCacheLockState_infos (st : Cache) (n : String) (b : Bool) :
    updateCacheLockState st n b =
      { st with infos := st.infos.map (fun e =>
          if e.1 ∈ lockMembers st n then (e.1, setInfoLockState b e.2) else e) } := by
  unfold updateCacheLockState updateCacheVginfoLockState lockMembers
  rcases hv : lvmcacheVginfoFromVgname st (some n) none with _ | vId
  · simp
  · rcases hgv : getVg st vId with _ | v
    · simp [hgv]
    · simp only [hgv]

theorem lockMembers_update (st : Cache) (lh : List String) (il : List (Nat × Info))
    (vl : Nat) (n : String) :
    lockMembers { st with lockHash := lh, infos := il, vgsLocked := vl } n =
      lockMembers st n := rfl

/-- C5 amended: for a prior state in which the name's members carry no
CACHE_LOCKED bit, lock(name); unlock(name) restores the lock registry
exactly (key set, locked-VG count, CACHE_LOCKED bits) and bumps the
monotonic device-size seqno iff the name is not VG_GLOBAL and the prior
locked-VG count was zero. -/
theorem lockUnlock_roundtrip (st : Cache) (name : String)
    (hbits : ∀ e ∈ st.infos, e.1 ∈ lockMembers st name → e.2.status.testBit 1 = false) :
    lvmcacheUnlockVgname (lvmcacheLockVgname st name) name =
      (if name = VG_GLOBAL then st
       else if st.vgsLocked = 0 then { st with devSizeSeqno := st.devSizeSeqno + 1 }
       else st) := by
  by_cases hg : name = VG_GLOBAL
  · subst hg
    rw [if_pos rfl]
    unfold lvmcacheLockVgname lvmcacheUnlockVgname
    simp only [ne_eq, not_true_eq_false, if_false, List.erase_cons_head]
  · rw [if_neg hg]
    have e1 : lvmcacheLockVgname st name =
        { st with
          lockHash := name :: st.lockHash
          infos := st.infos.map (fun e =>
            if e.1 ∈ lockMembers st name then (e.1, setInfoLockState true e.2) else e)
          vgsLocked := st.vgsLocked + 1 } := by
      unfold lvmcacheLockVgname
      rw [if_pos hg, updateCacheLockState_infos]
      rfl
    rw [e1]
    unfold lvmcacheUnlockVgname
    simp only [updateCacheLockState_infos, lockMembers_update, hg, ne_eq,
      not_false_eq_true, if_true, ite_true, List.erase_cons_head,
      lockState_map_roundtrip st.infos (lockMembers st name) hbits,
      Nat.add_sub_cancel]

/-- C5 counterexample: with VG "a" already locked (locked-VG count 1),
lock("b"); unlock("b") does not bump the device-size seqno even though
"b" is not VG_GLOBAL — refuting the claim that the seqno is bumped iff
the name is non-global. -/
theorem lockUnlock_seqno_counterexample :
    (lvmcacheUnlockVgname (lvmcacheLockVgname stLockedOne "b") "b").devSizeSeqno =
        stLockedOne.devSizeSeqno ∧
      "b" ≠ VG_GLOBAL := by
  refine ⟨?_, ?_⟩ <;> decide

/-- C5 witness: with "a" already locked, lock("b"); unlock("b") leaves
the whole registry state unchanged. -/
theorem lockUnlock_roundtrip_witness :
    lvmcacheUnlockVgname (lvmcacheLockVgname stLockedOne "b") "b" = stLockedOne :=
  (lockUnlock_roundtrip stLockedOne "b" (by decide)).trans (by decide)

/-- C9: an update whose summary would move an mda-less PV that already
belongs to a real VG into the orphan VG while a critical section is in
progress returns success and leaves the whole cache state — membership
and all four indexes — unchanged. -/
theorem update_orphan_move_suppressed (st : Cache) (iId vId : Nat) (info : Info)
    (v : VgInfo) (s : VgSummary)
    (hinfo : getInfo st iId = some info)
    (hiv : info.vginfo = some vId)
    (hvg : getVg st vId = some v)
    (hmd : info.mdasEmptyOrIgnored = true)
    (hsum : isOrphanVgOpt s.vgname = true)
    (hreal : isOrphanVg v.vgname = false)
    (hcrit : st.criticalSection = true) :
    lvmcacheUpdateVgnameAndId st iId s = (st, true) := by
  have hnn : s.vgname.isNone = false := by
    cases hh : s.vgname with
    | none => rw [hh] at hsum; simp [isOrphanVgOpt] at hsum
    | some x => rfl
  have hvgnm : infoVginfoVgname st iId = some v.vgname := by
    simp only [infoVginfoVgname, hinfo, hiv, hvg, Option.map_some']
  have hro : isOrphanVgOpt (some v.vgname) = false := by
    simp [isOrphanVgOpt, hreal]
  unfold lvmcacheUpdateVgnameAndId
  rw [hinfo]
  simp only [hnn, Bool.false_eq_true, false_and, if_false, ite_false, hsum, hiv,
    Option.isSome_some, hmd, hvgnm, hro, hcrit, and_self, and_true, true_and,
    if_true, ite_true]

/-- C9 witness: the concrete mda-less PV in vg0 is not moved to the
orphan VG by an orphan summary during a critical section. -/
theorem update_orphan_move_suppressed_witness :
    lvmcacheUpdateVgnameAndId stMdaless 0 summaryOrphan = (stMdaless, true) :=
  update_orphan_move_suppressed stMdaless 0 0 infoMdaless vgExample summaryOrphan
    (by decide) (by decide) (by decide) (by decide) (by decide) (by decide) (by decide)

/-- C1 amended: when the registry already maps the pvid to an info bound
to a different device, add returns NULL, leaves the PV-id index pointing
at the old device, raises the found-duplicates flag, and appends only
the new device to the found-duplicates list (the old device is not
recorded there). -/
theorem lvmcacheAdd_duplicate (st : Cache) (iId : Nat) (info : Info) (labeller : Nat)
    (pvid : String) (dev : Nat) (vgname? vgid? : Option String) (vgstatus : Nat)
    (hfind : afind (idTrunc pvid) st.pvidHash = some iId)
    (hinfo : getInfo st iId = some info)
    (hdev : info.dev ≠ dev) :
    lvmcacheAdd st labeller pvid dev vgname? vgid? vgstatus =
      ({ st with
         foundDuplicatePvs := true
         devPvids := aupsert dev (idTrunc pvid) st.devPvids
         foundDuplicateDevs := st.foundDuplicateDevs ++ [dev] }, none) ∧
      (lvmcacheAdd st labeller pvid dev vgname? vgid? vgstatus).1.pvidHash = st.pvidHash ∧
      lvmcacheFoundDuplicatePvs (lvmcacheAdd st labeller pvid dev vgname? vgid? vgstatus).1 =
        true := by
  have hlookup : lvmcacheInfoFromPvid st (idTrunc pvid) none = some iId := by
    unfold lvmcacheInfoFromPvid
    rw [idTrunc_idem, hfind]
    simp only [hinfo]
  have hmain : lvmcacheAdd st labeller pvid dev vgname? vgid? vgstatus =
      ({ st with
         foundDuplicatePvs := true
         devPvids := aupsert dev (idTrunc pvid) st.devPvids
         foundDuplicateDevs := st.foundDuplicateDevs ++ [dev] }, none) := by
    unfold lvmcacheAdd
    simp only [hlookup, hinfo, if_pos hdev]
    rfl
  refine ⟨hmain, ?_, ?_⟩ <;> simp [hmain, lvmcacheFoundDuplicatePvs]

/-- C1 counterexample: adding PV P1 on device 11 while the registry
holds P1 on device 10 records only the new device 11 on the
found-duplicates list; the old device 10 is not recorded there, refuting
the claim that both devices are recorded on that list. -/
theorem lvmcacheAdd_duplicate_counterexample :
    (lvmcacheAdd stSimple 5 "P1" 11 (some "vg0") (some "G1") 0).1.foundDuplicateDevs =
        [11] ∧
      (10 : Nat) ∉
        (lvmcacheAdd stSimple 5 "P1" 11 (some "vg0") (some "G1") 0).1.foundDuplicateDevs ∧
      (lvmcacheAdd stSimple 5 "P1" 11 (some "vg0") (some "G1") 0).2 = none := by
  refine ⟨?_, ?_, ?_⟩ <;> decide

/-- C1 witness: the amended statement evaluated on the concrete
duplicate scenario. -/
theorem lvmcacheAdd_duplicate_witness :
    lvmcacheAdd stSimple 5 "P1" 11 (some "vg0") (some "G1") 0 =
      ({ stSimple with
         foundDuplicatePvs := true
         devPvids := aupsert 11 (idTrunc "P1") stSimple.devPvids
         foundDuplicateDevs := stSimple.foundDuplicateDevs ++ [11] }, none) :=
  (lvmcacheAdd_duplicate stSimple 0 infoExample 5 "P1" 11 (some "vg0") (some "G1") 0
    (by decide) (by decide) (by decide)).1

/-- C3: an update whose summary carries a non-zero witness and reaches a
VGInfo that already recorded a different witness (seqno differs, or mda
checksum/size differs) sets scan_summary_mismatch, returns success and
changes nothing else — in particular the PVInfo stays attached — and the
mismatch is then observable through scan_mismatch. -/
theorem update_witness_mismatch (st : Cache) (iId vId : Nat) (info : Info) (v : VgInfo)
    (s : VgSummary)
    (hinfo : getInfo st iId = some info)
    (hiv : info.vginfo = some vId)
    (hvg : getVg st vId = some v)
    (hname : s.vgname = some v.vgname)
    (hvgid : idTrunc s.vgid = idTrunc v.vgid)
    (hseq : v.seqno ≠ 0) (hmda : v.mdaSize ≠ 0)
    (hnon0 : ¬(s.seqno = 0 ∧ s.mdaSize = 0 ∧ s.mdaChecksum = 0))
    (hdis : s.seqno ≠ v.seqno ∨ s.mdaSize ≠ v.mdaSize ∨ s.mdaChecksum ≠ v.mdaChecksum)
    (hidx : afind (idTrunc s.vgid) st.vgidHash = some vId) :
    lvmcacheUpdateVgnameAndId st iId s =
      ({ st with vgs := aset vId { v with scanSummaryMismatch := true } st.vgs }, true) ∧
      lvmcacheScanMismatch
        (lvmcacheUpdateVgnameAndId st iId s).1 s.vgname (some s.vgid) = true := by
  have hnn : s.vgname.isNone = false := by rw [hname]; rfl
  have hvgnm : infoVginfoVgname st iId = some v.vgname := by
    simp only [infoVginfoVgname, hinfo, hiv, hvg, Option.map_some']
  have hupd : lvmcacheUpdateVgname st (some iId) s.vgname (some s.vgid) s.vgstatus
      s.creationHost info.fmt = st := by
    rw [hname]
    unfold lvmcacheUpdateVgname
    simp [hvgnm]
  have hupdid : lvmcacheUpdateVgid st ((getInfo st iId).bind Info.vginfo)
      (some s.vgid) = st := by
    unfold lvmcacheUpdateVgid
    simp only [hinfo, Option.bind, hiv, hvg]
    rw [if_pos hvgid.symm]
  have hguard : ¬(isOrphanVgOpt s.vgname = true ∧ info.vginfo.isSome = true ∧
      info.mdasEmptyOrIgnored = true ∧
      isOrphanVgOpt (infoVginfoVgname st iId) = false ∧ st.criticalSection = true) := by
    rintro ⟨h1, -, -, h4, -⟩
    rw [hname] at h1
    rw [hvgnm] at h4
    simp only [isOrphanVgOpt] at h1 h4
    rw [h1] at h4
    exact absurd h4 (by decide)
  have hwit : updateVgWitness st iId s =
      ({ st with vgs := aset vId { v with scanSummaryMismatch := true } st.vgs }, true) := by
    unfold updateVgWitness
    simp only [hinfo, Option.bind, hiv, hvg]
    rw [if_neg hseq]
    by_cases hs : s.seqno = v.seqno
    · rw [if_neg (by simp [hs])]
      unfold updateVgMda
      rw [hvg]
      simp only []
      rw [if_neg hmda]
      have hd2 : v.mdaSize ≠ s.mdaSize ∨ v.mdaChecksum ≠ s.mdaChecksum := by
        rcases hdis with hd | hd | hd
        · exact absurd hs hd
        · exact Or.inl (Ne.symm hd)
        · exact Or.inr (Ne.symm hd)
      rw [if_pos hd2]
      rfl
    · rw [if_pos hs]
      rfl
  have hmain : lvmcacheUpdateVgnameAndId st iId s =
      ({ st with vgs := aset vId { v with scanSummaryMismatch := true } st.vgs }, true) := by
    unfold lvmcacheUpdateVgnameAndId
    rw [hinfo]
    simp only [hnn, Bool.false_eq_true, false_and, if_false, ite_false]
    rw [if_neg hguard, hupd, hupdid, if_neg hnon0, hwit]
  have hlook : getVg { st with vgs := aset vId { v with scanSummaryMismatch := true } st.vgs }
      vId = some { v with scanSummaryMismatch := true } := by
    unfold getVg
    exact afind_aset_self vId { v with scanSummaryMismatch := true } v st.vgs hvg
  refine ⟨hmain, ?_⟩
  rw [hmain, hname]
  unfold lvmcacheScanMismatch lvmcacheVginfoFromVgid
  simp only [hidx, hlook]

/-- C3 witness: a second device of vg0 reporting seqno 6 against the
recorded witness seqno 5 flags the mismatch and is kept. -/
theorem update_witness_mismatch_witness :
    lvmcacheUpdateVgnameAndId stWitnessed 0 summaryMismatch =
      ({ stWitnessed with
         vgs := aset 0 { vgWitnessed with scanSummaryMismatch := true } stWitnessed.vgs },
        true) ∧
      lvmcacheScanMismatch (lvmcacheUpdateVgnameAndId stWitnessed 0 summaryMismatch).1
        summaryMismatch.vgname (some summaryMismatch.vgid) = true :=
  update_witness_mismatch stWitnessed 0 0 infoExample vgWitnessed summaryMismatch
    (by decide) (by decide) (by decide) (by decide) (by decide) (by decide) (by decide)
    (by decide) (by decide) (by decide)

theorem freeVginfo_spec (st2 : Cache) (vId : Nat) (v2 : VgInfo)
    (hv2 : getVg st2 vId = some v2)
    (hndV2 : (st2.vgs.map Prod.fst).Nodup)
    (hndC2 : (st2.vgnameChains.map Prod.fst).Nodup) :
    getVg (freeVginfo st2 vId) vId = none ∧
    chainOf (freeVginfo st2 vId) v2.vgname = (chainOf st2 v2.vgname).erase vId ∧
    (freeVginfo st2 vId).vgidHash =
      (if v2.vgid ≠ "" ∧ afind v2.vgid st2.vgidHash = some vId
       then aerase v2.vgid st2.vgidHash else st2.vgidHash) ∧
    (freeVginfo st2 vId).infos = st2.infos := by
  have hnone : afind vId (aerase vId st2.vgs) = none := afind_aerase_self vId st2.vgs hndV2
  unfold freeVginfo
  simp only [hv2]
  rcases hch : afind v2.vgname st2.vgnameChains with _ | chain
  · by_cases hc : v2.vgid ≠ "" ∧ afind v2.vgid st2.vgidHash = some vId <;>
      simp [hc, getVg, hnone, chainOf, hch]
  · rcases chain with _ | ⟨p, rest⟩
    · by_cases hc : v2.vgid ≠ "" ∧ afind v2.vgid st2.vgidHash = some vId <;>
        simp [hc, getVg, hnone, chainOf, hch]
    · by_cases hp : p = vId
      · subst hp
        rcases rest with _ | ⟨q, qs⟩
        · have hgone : afind v2.vgname (aerase v2.vgname st2.vgnameChains) = none :=
            afind_aerase_self v2.vgname st2.vgnameChains hndC2
          by_cases hc : v2.vgid ≠ "" ∧ afind v2.vgid st2.vgidHash = some p <;>
            simp [hc, getVg, hnone, chainOf, hch, hgone]
        · have hset : afind v2.vgname (aset v2.vgname (q :: qs) st2.vgnameChains) =
              some (q :: qs) :=
            afind_aset_self v2.vgname (q :: qs) (p :: q :: qs) st2.vgnameChains hch
          by_cases hc : v2.vgid ≠ "" ∧ afind v2.vgid st2.vgidHash = some p <;>
            simp [hc, getVg, hnone, chainOf, hch, hset]
      · have hset : afind v2.vgname
            (aset v2.vgname (p :: rest.erase vId) st2.vgnameChains) =
              some (p :: rest.erase vId) :=
          afind_aset_self v2.vgname (p :: rest.erase vId) (p :: rest) st2.vgnameChains hch
        have herase : (p :: rest).erase vId = p :: rest.erase vId :=
          List.erase_cons_tail (by simpa using hp)
        by_cases hc : v2.vgid ≠ "" ∧ afind v2.vgid st2.vgidHash = some vId <;>
          simp [hc, hp, getVg, hnone, chainOf, hch, hset, herase]

/-- C8: detaching an info unlinks it from its VGInfo and nulls the
back-pointer; the VGInfo is then freed exactly when it has no remaining
members and is not an orphan VGInfo; freeing rewires the name chain
(promoting the successor when the freed entry was the hash target,
splicing it out otherwise) and removes the vgid binding when it still
points at the freed VGInfo; an orphan VGInfo is never deleted. -/
theorem dropVginfo_spec (st : Cache) (iId vId : Nat) (info : Info) (v : VgInfo)
    (hinfo : getInfo st iId = some info)
    (hiv : info.vginfo = some vId)
    (hvg : getVg st vId = some v)
    (hndV : (st.vgs.map Prod.fst).Nodup)
    (hndC : (st.vgnameChains.map Prod.fst).Nodup) :
    getInfo (dropVginfo st (some iId) (some vId)).1 iId =
        some { info with vginfo := none } ∧
    ((isOrphanVg v.vgname = true ∨ v.infos.erase iId ≠ []) →
      getVg (dropVginfo st (some iId) (some vId)).1 vId =
        some { v with infos := v.infos.erase iId }) ∧
    (isOrphanVg v.vgname = false → v.infos.erase iId = [] →
      getVg (dropVginfo st (some iId) (some vId)).1 vId = none ∧
      chainOf (dropVginfo st (some iId) (some vId)).1 v.vgname =
        (chainOf st v.vgname).erase vId ∧
      (dropVginfo st (some iId) (some vId)).1.vgidHash =
        (if v.vgid ≠ "" ∧ afind v.vgid st.vgidHash = some vId
         then aerase v.vgid st.vgidHash else st.vgidHash)) := by
  have hdet : vginfoDetachInfo st iId =
      { st with
        vgs := aset vId { v with infos := v.infos.erase iId } st.vgs
        infos := aset iId { info with vginfo := none } st.infos } := by
    unfold vginfoDetachInfo
    simp only [hinfo, hiv, hvg]
    rfl
  have hgv2 : getVg (vginfoDetachInfo st iId) vId =
      some { v with infos := v.infos.erase iId } := by
    rw [hdet]
    unfold getVg
    exact afind_aset_self vId { v with infos := v.infos.erase iId } v st.vgs hvg
  have hgi2 : getInfo (vginfoDetachInfo st iId) iId = some { info with vginfo := none } := by
    rw [hdet]
    unfold getInfo
    exact afind_aset_self iId { info with vginfo := none } info st.infos hinfo
  by_cases hkeep : isOrphanVg v.vgname = true ∨ v.infos.erase iId ≠ []
  · have hres : dropVginfo st (some iId) (some vId) = (vginfoDetachInfo st iId, true) := by
      unfold dropVginfo
      simp only [hgv2]
      rw [if_pos hkeep]
    refine ⟨by rw [hres]; exact hgi2, fun _ => by rw [hres]; exact hgv2, ?_⟩
    rintro h1 h2
    rcases hkeep with hk | hk
    · rw [h1] at hk
      exact absurd hk (by decide)
    · exact absurd h2 hk
  · have hres : dropVginfo st (some iId) (some vId) =
        (freeVginfo (vginfoDetachInfo st iId) vId, true) := by
      unfold dropVginfo
      simp only [hgv2]
      rw [if_neg hkeep]
    have hndV2 : ((vginfoDetachInfo st iId).vgs.map Prod.fst).Nodup := by
      rw [hdet]
      simpa [keys_aset] using hndV
    have hndC2 : ((vginfoDetachInfo st iId).vgnameChains.map Prod.fst).Nodup := by
      rw [hdet]
      exact hndC
    obtain ⟨ha, hb, hcid, hinf⟩ := freeVginfo_spec (vginfoDetachInfo st iId) vId
      { v with infos := v.infos.erase iId } hgv2 hndV2 hndC2
    rw [hdet] at hb hcid
    refine ⟨?_, fun hor => absurd hor hkeep, fun h1 h2 => ⟨?_, ?_, ?_⟩⟩
    · rw [hres]
      unfold getInfo
      rw [hinf]
      exact hgi2
    · rw [hres]
      exact ha
    · rw [hres, hdet]
      exact hb
    · rw [hres, hdet]
      exact hcid

/-- C8 witness: detaching the only member of vg0 frees the vginfo,
empties the name chain, and nulls the back-pointer. -/
theorem dropVginfo_spec_witness :
    getInfo (dropVginfo stSimple (some 0) (some 0)).1 0 =
        some { infoExample with vginfo := none } ∧
      getVg (dropVginfo stSimple (some 0) (some 0)).1 0 = none ∧
      chainOf (dropVginfo stSimple (some 0) (some 0)).1 vgExample.vgname =
        (chainOf stSimple vgExample.vgname).erase 0 := by
  obtain ⟨h1, h2, h3⟩ := dropVginfo_spec stSimple 0 0 infoExample vgExample
    (by decide) (by decide) (by decide) (by decide) (by decide)
  obtain ⟨ha, hb, hcv⟩ := h3 (by decide) (by decide)
  exact ⟨h1, ha, hb⟩

end Lvm
